import Mathlib

/-!
Shallow embedding of `timesheeter.py`, a command-line timesheet entry tool.

The program keeps a single worksheet on a remote spreadsheet service.  We model
the worksheet as a total function from (1-based) row and column indices to cell
strings, a row of the timesheet as a 4-tuple of strings, and each Python
function of the script as a Lean function over these data.  Remote calls
(`update_cell`, `row_values`, authorization and lookup) are modelled by
explicit state passing and by oracle parameters describing the remote side.
Terminal behaviour (what is printed, `sys.exit`, uncaught exceptions) is
returned explicitly as a list of printed lines together with an outcome value.
-/

namespace Timesheeter

/-- A timesheet row: the 4-tuple `(date, hours, project, description)` built in
`get_rows_from_user` (`row = (entry_date, work_hour, project_name, description)`). -/
structure Row where
  date : String
  hours : String
  project : String
  description : String
deriving DecidableEq

/-- Compiled form of the Python check `re.match(r'^\d{4}.\d{2}.\d{2}.$', s)`
restricted to an 11-character candidate, with Python's default flags:
`\d` is a decimal digit (modelled here on ASCII digits), `.` matches any
character except a newline.  The candidate must consist of 4 digits, one
non-newline character, 2 digits, one non-newline character, 2 digits, and one
final non-newline character. -/
def dateCore (cs : List Char) : Bool :=
  cs.length == 11 &&
  (cs.getD 0 ' ').isDigit && (cs.getD 1 ' ').isDigit &&
  (cs.getD 2 ' ').isDigit && (cs.getD 3 ' ').isDigit &&
  (cs.getD 4 ' ') != '\n' &&
  (cs.getD 5 ' ').isDigit && (cs.getD 6 ' ').isDigit &&
  (cs.getD 7 ' ') != '\n' &&
  (cs.getD 8 ' ').isDigit && (cs.getD 9 ' ').isDigit &&
  (cs.getD 10 ' ') != '\n'

/-- Model of `validate_date` (timesheeter.py lines 270-277):
`return True if re.match(r'^\d{4}.\d{2}.\d{2}.$', date_string) else False`.
With Python's default flags, `$` matches at the end of the string or just
before a newline at the end of the string, so the regex accepts either an
11-character candidate or a 12-character string whose final character is a
newline and whose first 11 characters form a candidate. -/
def validate_date (date_string : String) : Bool :=
  dateCore date_string.data ||
  (date_string.data.getLast? == some '\n' && dateCore date_string.data.dropLast)

/-- Model of `validate_row` (timesheeter.py lines 254-267): reject if the date
field fails `validate_date`, reject if any of `row[1]`, `row[2]`, `row[3]`
is falsy (an empty string), accept otherwise. -/
def validate_row (row : Row) : Bool :=
  if !validate_date row.date then false
  else if row.hours = "" || row.project = "" || row.description = "" then false
  else true

/-- Characters Python's `int(str)` strips from both ends of its argument
(ASCII whitespace). -/
def isPySpace (c : Char) : Bool :=
  c == ' ' || c == '\x09' || c == '\x0a' || c == '\x0b' || c == '\x0c' || c == '\x0d'

/-- Tail of a Python integer-literal digit run: digits, with single
underscores allowed only between digits. -/
def pyDigitTail : List Char → Bool
  | [] => true
  | '_' :: c :: rest => c.isDigit && pyDigitTail rest
  | ['_'] => false
  | c :: rest => c.isDigit && pyDigitTail rest

/-- A nonempty Python integer-literal digit run: starts with a digit,
single underscores allowed between digits. -/
def pyDigitRun : List Char → Bool
  | [] => false
  | c :: rest => c.isDigit && pyDigitTail rest

/-- Model of `is_int` (timesheeter.py lines 280-291): `int(value)` succeeds
exactly on optional surrounding whitespace, an optional sign, and a nonempty
digit run (with single underscores between digits); modelled on ASCII digits. -/
def is_int (value : String) : Bool :=
  match (value.data.dropWhile isPySpace).reverse.dropWhile isPySpace |>.reverse with
  | '+' :: rest => pyDigitRun rest
  | '-' :: rest => pyDigitRun rest
  | cs => pyDigitRun cs

/-- The configuration store as `validate_config` observes it: which sections
and options are present (`has_section` / `has_option`), and the string values
of the four options.  `isfile` below stands for `os.path.isfile`. -/
structure PyConfig where
  hasAUTH : Bool
  hasSHEET : Bool
  hasINTERFACE : Bool
  hasCredentialPath : Bool
  hasName : Bool
  hasTabTitle : Bool
  hasDisplayRows : Bool
  credentialPath : String
  name : String
  tabTitle : String
  displayRows : String
deriving DecidableEq

/-- Model of `validate_config` (timesheeter.py lines 62-106): eleven checks in
source order, returning `(False, message)` at the first failing check and
`(True, None)` when all pass. -/
def validate_config (c : PyConfig) (isfile : String → Bool) : Bool × Option String :=
  if !c.hasAUTH then (false, some "AUTH section is invalid.")
  else if !c.hasSHEET then (false, some "SHEET section is invalid.")
  else if !c.hasINTERFACE then (false, some "INTERFACE section is invalid.")
  else if !c.hasCredentialPath then
    (false, some "CredentialPath option is invalid in the AUTH section.")
  else if !c.hasName then (false, some "Name option is invalid in the SHEET section.")
  else if !c.hasTabTitle then (false, some "TabTitle option is invalid in the SHEET section.")
  else if !c.hasDisplayRows then
    (false, some "DisplayRows option is invalid in the INTERFACE section.")
  else if !isfile c.credentialPath then (false, some "Credential's path is invalid.")
  else if c.name = "" then (false, some "Spreadsheet name is invalid.")
  else if c.tabTitle = "" then (false, some "Spreadsheet tab title is invalid.")
  else if c.displayRows = "" || !is_int c.displayRows then
    (false, some "Interface DisplayRows is invalid.")
  else (true, none)

/-- The claimed check order, written from the claim's words: each entry pairs
the condition that the check passes with the message reported when it is the
first to fail (AUTH section, SHEET section, INTERFACE section, CredentialPath,
Name, TabTitle, DisplayRows options, credential file existence, non-empty
Name, non-empty TabTitle, integer DisplayRows). -/
def configChecks (c : PyConfig) (isfile : String → Bool) : List (Bool × String) :=
  [(c.hasAUTH, "AUTH section is invalid."),
   (c.hasSHEET, "SHEET section is invalid."),
   (c.hasINTERFACE, "INTERFACE section is invalid."),
   (c.hasCredentialPath, "CredentialPath option is invalid in the AUTH section."),
   (c.hasName, "Name option is invalid in the SHEET section."),
   (c.hasTabTitle, "TabTitle option is invalid in the SHEET section."),
   (c.hasDisplayRows, "DisplayRows option is invalid in the INTERFACE section."),
   (isfile c.credentialPath, "Credential's path is invalid."),
   (!(c.name = ""), "Spreadsheet name is invalid."),
   (!(c.tabTitle = ""), "Spreadsheet tab title is invalid."),
   (!(c.displayRows = "" || !is_int c.displayRows), "Interface DisplayRows is invalid.")]

/-- Fail-fast evaluation of an ordered check list: the first failing check's
message, or success when every check passes. -/
def firstFailure : List (Bool × String) → Bool × Option String
  | [] => (true, none)
  | (ok, msg) :: rest => if ok then firstFailure rest else (false, some msg)

/-- How a modelled code path leaves the process: an explicit `sys.exit(code)`,
an uncaught Python exception (which makes the interpreter print a traceback to
stderr and terminate the process with status 1), or normal continuation. -/
inductive ProcEnd where
  | exited (code : Nat)
  | uncaughtException (exceptionName : String)
  | continued
deriving DecidableEq

/-- Whether the process terminates with a non-zero exit status: true for
`sys.exit(code)` with `code ≠ 0` and for any uncaught exception (an uncaught
Python exception terminates the interpreter with status 1). -/
def endsNonzero : ProcEnd → Bool
  | .exited code => code != 0
  | .uncaughtException _ => true
  | .continued => false

/-- The value `load_config` returns (timesheeter.py lines 34-58): the bare
boolean `False` when the config file does not exist (line 49), otherwise the
`(bool, message)` tuple produced by `validate_config` (line 58). -/
inductive LoadResult where
  | boolResult (b : Bool)
  | tupleResult (t : Bool × Option String)
deriving DecidableEq

/-- Model of `load_config` (timesheeter.py lines 34-58). `configFileExists`
stands for `os.path.isfile(CONFIG_FILE_NAME)`, `c` for the parsed config and
`isfile` for `os.path.isfile` on the credential path. -/
def load_config (configFileExists : Bool) (c : PyConfig) (isfile : String → Bool) :
    LoadResult :=
  if !configFileExists then .boolResult false
  else .tupleResult (validate_config c isfile)

/-- Python's 2-tuple unpacking `is_loaded, error_message = load_config()`
(timesheeter.py line 117): succeeds on a 2-tuple, raises `TypeError`
(modelled as `none`) on a bare boolean, which is not iterable. -/
def unpackPair : LoadResult → Option (Bool × Option String)
  | .boolResult _ => none
  | .tupleResult t => some t

/-- Model of the configuration phase of `init` (timesheeter.py lines 109-123):
unpack `load_config()`; on a falsy `is_loaded` print `ERROR: <message>` and
`sys.exit(1)`; on success continue.  When unpacking raises `TypeError` the
exception propagates out of `init` uncaught.  Returns the printed lines and
the process outcome. -/
def init_config_phase (configFileExists : Bool) (c : PyConfig) (isfile : String → Bool) :
    List String × ProcEnd :=
  match unpackPair (load_config configFileExists c isfile) with
  | none => ([], .uncaughtException "TypeError")
  | some (isLoaded, errorMessage) =>
    if !isLoaded then (["ERROR: " ++ errorMessage.getD "None"], .exited 1)
    else ([], .continued)

/-- Result of `gspread.authorize(creds)` as the remote side decides it. -/
inductive AuthOutcome where
  | success
  | failure (err : String)
deriving DecidableEq

/-- Model of the remote phase of `init` (timesheeter.py lines 130-151).
On an authorization exception the `except` branch prints
`Error during the authorization: <e>` and — lacking a `sys.exit` — falls
through to `client.open(...)`, where the name `client` was never bound, so an
uncaught `NameError` terminates the process.  A missing spreadsheet prints
`Error! The spreadsheet is not found: <name>` and exits 1; a missing worksheet
tab prints `Error! The worksheet is not found: <name>` and exits 1. -/
def init_remote_phase (auth : AuthOutcome) (spreadsheetFound worksheetFound : Bool)
    (spreadsheetName worksheetName : String) : List String × ProcEnd :=
  match auth with
  | .failure e =>
    (["Error during the authorization: " ++ e], .uncaughtException "NameError")
  | .success =>
    if !spreadsheetFound then
      (["Error! The spreadsheet is not found: " ++ spreadsheetName], .exited 1)
    else if !worksheetFound then
      (["Error! The worksheet is not found: " ++ worksheetName], .exited 1)
    else ([], .continued)

/-- The remote worksheet, modelled as a total map from (1-based) row and
column indices to cell strings; cells never written hold `""`. -/
def Worksheet : Type := Int → Int → String

/-- Model of `worksheet.update_cell(row, col, value)`: the worksheet with the
one addressed cell replaced. -/
def update_cell (ws : Worksheet) (row col : Int) (value : String) : Worksheet :=
  fun r c => if r = row ∧ c = col then value else ws r c

/-- Model of `write_row` (timesheeter.py lines 166-176):
`for column in range(0, len(row_data)): worksheet.update_cell(row_number, column + 1,
row_data[column])`. -/
def write_row (ws : Worksheet) (row_number : Int) (row_data : List String) : Worksheet :=
  (List.range row_data.length).foldl
    (fun w column => update_cell w row_number (Int.ofNat column + 1) (row_data.getD column ""))
    ws

/-- The cell list of a `Row` in the order `write_row` receives it. -/
def rowData (row : Row) : List String :=
  [row.date, row.hours, row.project, row.description]

/-- Model of the write step of one entry-loop iteration (timesheeter.py lines
222-228) starting from worksheet `ws`, last-row index `last_row_index` and
previous row `last_row`, with `row` the accepted candidate:

if the candidate's date equals `last_row[0]`, `write_row(last_row_index + 1, row)`;
otherwise `last_row_index += 1` and then `write_row(last_row_index + 1, row)`;
in both branches `last_row_index += 1` afterwards.  Returns the updated
worksheet and the final `last_row_index`. -/
def entry_write_step (ws : Worksheet) (last_row_index : Int) (last_row row : Row) :
    Worksheet × Int :=
  let branch :=
    if row.date = last_row.date then
      (write_row ws (last_row_index + 1) (rowData row), last_row_index)
    else
      (write_row ws (last_row_index + 1 + 1) (rowData row), last_row_index + 1)
  (branch.1, branch.2 + 1)

/-- A worksheet row as `print_last_rows` observes it through
`worksheet.row_values(row_index)`, rebuilt as the 4-tuple of the row's cells
(blank cells are empty strings). -/
def row_values (ws : Worksheet) (row_index : Int) : Row :=
  ⟨ws row_index 1, ws row_index 2, ws row_index 3, ws row_index 4⟩

/-- Python's `range(a, b)` over integers: `a, a+1, ..., b-1`. -/
def pyRange (a b : Int) : List Int :=
  (List.range (b - a).toNat).map (fun i => a + (i : Int))

/-- The line `print_last_rows` prints for one row: the single character `-`
when the row's first (date) cell is empty (`row[0] is ''`), otherwise the four
cells joined by tabs. -/
def displayLine (r : Row) : String :=
  if r.date = "" then "-"
  else r.date ++ "\x09" ++ r.hours ++ "\x09" ++ r.project ++ "\x09" ++ r.description

/-- One loop step of `print_last_rows`: append the printed line and, when the
row's date cell is non-empty, remember the row as `last_row`. -/
def printRowsStep (ws : Worksheet) (acc : List String × Option Row) (row_index : Int) :
    List String × Option Row :=
  let row := row_values ws row_index
  if row.date = "" then (acc.1 ++ ["-"], acc.2)
  else (acc.1 ++ [displayLine row], some row)

/-- Model of `print_last_rows` (timesheeter.py lines 294-319) with
`count = int(config['INTERFACE']['DisplayRows'])`:

`row_index_from = last_row_index - count if (last_row_index - count) > 0 else 0`,
`row_index_to = last_row_index if last_row_index > row_index_from else row_index_from + 1`,
then for `row_index in range(row_index_from + 1, row_index_to + 1)` fetch the
row and print `-` for an empty date cell or the tab-joined cells otherwise,
remembering the last row printed in full.  Returns the printed lines and the
returned `last_row` (`None` when no row with a non-empty date was seen). -/
def print_last_rows (ws : Worksheet) (last_row_index count : Int) :
    List String × Option Row :=
  let row_index_from := if last_row_index - count > 0 then last_row_index - count else 0
  let row_index_to :=
    if last_row_index > row_index_from then last_row_index else row_index_from + 1
  (pyRange (row_index_from + 1) (row_index_to + 1)).foldl (printRowsStep ws) ([], none)

/-- The decimal digit character for `n % 10`. -/
def digitChar (n : Nat) : Char :=
  Char.ofNat (48 + n % 10)

/-- The year zero-padded to four digit characters, as `date.isoformat`
renders it (exact for the `datetime` year range `1 ≤ y ≤ 9999`). -/
def pad4 (n : Nat) : List Char :=
  [digitChar (n / 1000), digitChar (n / 100), digitChar (n / 10), digitChar n]

/-- A month or day zero-padded to two digit characters, as `date.isoformat`
renders it (exact for values below 100). -/
def pad2 (n : Nat) : List Char :=
  [digitChar (n / 10), digitChar n]

/-- Model of the default date of an entry-loop iteration (timesheeter.py
lines 201-203): `date.today().isoformat()` yields the zero-padded
`YYYY-MM-DD`, whose two hyphens `.replace('-', '.')` turns into dots, and a
final `'.'` is appended, giving `YYYY.MM.DD.`. -/
def todayDateString (y m d : Nat) : String :=
  String.mk (pad4 y ++ ('.' :: pad2 m) ++ ('.' :: pad2 d) ++ ['.'])

/-- Model of one iteration's candidate-row assembly (timesheeter.py lines
200-215): the typed date replaces the default only when it passes
`validate_date`; an empty typed project name or work-hours string keeps the
previous value (`raw if raw is not '' else previous`); the description is
taken as typed. -/
def assemble_entry (today rawDate prevProject rawProject prevHours rawHours
    descriptionInput : String) : Row :=
  let entry_date := if validate_date rawDate then rawDate else today
  let project_name := if rawProject ≠ "" then rawProject else prevProject
  let work_hour := if rawHours ≠ "" then rawHours else prevHours
  ⟨entry_date, work_hour, project_name, descriptionInput⟩

/-- Success of a fail-fast check list means every check passes. -/
theorem firstFailure_true_iff (l : List (Bool × String)) :
    (firstFailure l).1 = true ↔ ∀ p ∈ l, p.1 = true := by
  induction l with
  | nil => simp [firstFailure]
  | cons hd tl ih =>
    obtain ⟨ok, msg⟩ := hd
    by_cases h : ok = true <;> simp [firstFailure, h, ih]

/-- C7: the row validator accepts a 4-tuple exactly when its date field passes
the date pattern check and its hours, project and description fields are all
non-empty; the date validator accepts "2024.01.05." and rejects "2024-01-05",
"24.01.05." and the empty string, and the row
("2024.01.05.", "8", "ProjectX", "did work") is accepted. -/
theorem C7_row_validator_characterization (row : Row) :
    validate_row row =
      (validate_date row.date && !(row.hours == "") && !(row.project == "") &&
        !(row.description == "")) ∧
    validate_date "2024.01.05." = true ∧
    validate_date "2024-01-05" = false ∧
    validate_date "24.01.05." = false ∧
    validate_date "" = false ∧
    validate_row ⟨"2024.01.05.", "8", "ProjectX", "did work"⟩ = true := by
  refine ⟨?_, by decide, by decide, by decide, by decide, by decide⟩
  unfold validate_row
  by_cases hdate : validate_date row.date
  · by_cases h1 : row.hours = "" <;> by_cases h2 : row.project = "" <;>
      by_cases h3 : row.description = "" <;> simp [hdate, h1, h2, h3]
  · simp [hdate]

/-- C6: configuration validation runs its eleven checks in the fixed source
order (AUTH, SHEET, INTERFACE sections; CredentialPath, Name, TabTitle,
DisplayRows options; credential file existence; non-empty Name; non-empty
TabTitle; integer DisplayRows), reports the message of the first failing
check, and succeeds exactly when every check passes. -/
theorem C6_validate_config_fail_fast (c : PyConfig) (isfile : String → Bool) :
    validate_config c isfile = firstFailure (configChecks c isfile) ∧
    ((validate_config c isfile).1 = true ↔ ∀ p ∈ configChecks c isfile, p.1 = true) := by
  have key : validate_config c isfile = firstFailure (configChecks c isfile) := by
    unfold validate_config configChecks
    by_cases h1 : c.hasAUTH = true
    case neg => simp [firstFailure, h1]
    by_cases h2 : c.hasSHEET = true
    case neg => simp [firstFailure, h1, h2]
    by_cases h3 : c.hasINTERFACE = true
    case neg => simp [firstFailure, h1, h2, h3]
    by_cases h4 : c.hasCredentialPath = true
    case neg => simp [firstFailure, h1, h2, h3, h4]
    by_cases h5 : c.hasName = true
    case neg => simp [firstFailure, h1, h2, h3, h4, h5]
    by_cases h6 : c.hasTabTitle = true
    case neg => simp [firstFailure, h1, h2, h3, h4, h5, h6]
    by_cases h7 : c.hasDisplayRows = true
    case neg => simp [firstFailure, h1, h2, h3, h4, h5, h6, h7]
    by_cases h8 : isfile c.credentialPath = true
    case neg => simp [firstFailure, h1, h2, h3, h4, h5, h6, h7, h8]
    by_cases h9 : c.name = ""
    case pos => simp [firstFailure, h1, h2, h3, h4, h5, h6, h7, h8, h9]
    by_cases h10 : c.tabTitle = ""
    case pos => simp [firstFailure, h1, h2, h3, h4, h5, h6, h7, h8, h9, h10]
    by_cases h11 : (c.displayRows = "" || !is_int c.displayRows) = true
    case pos => simp [firstFailure, h1, h2, h3, h4, h5, h6, h7, h8, h9, h10, h11]
    simp [firstFailure, h1, h2, h3, h4, h5, h6, h7, h8, h9, h10, h11]
  exact ⟨key, by rw [key]; exact firstFailure_true_iff _⟩

/-- C4 (code bug): with the configuration file absent, `load_config` returns
the bare boolean `False`, and `init`'s unpacking
`is_loaded, error_message = load_config()` raises an uncaught `TypeError`:
no configuration error message is printed and the `ERROR:`-then-`sys.exit(1)`
path is never reached. -/
theorem C4_missing_config_file_raises (c : PyConfig) (isfile : String → Bool) :
    init_config_phase false c isfile = ([], ProcEnd.uncaughtException "TypeError") ∧
    (init_config_phase false c isfile).1 = [] := by
  exact ⟨rfl, rfl⟩

/-- C5: an authorization failure, a missing spreadsheet, or a missing
worksheet tab each terminates the program with a printed error message and a
non-zero exit status.  The two not-found cases print their message and call
`sys.exit(1)`; the authorization case prints its message and then terminates
through an uncaught `NameError` (the `except` branch lacks an exit and
`client` is unbound), which also ends the process with status 1. -/
theorem C5_remote_failures_terminate_nonzero (e spreadsheetName worksheetName : String)
    (ssFound wsFound : Bool) :
    ((init_remote_phase (AuthOutcome.failure e) ssFound wsFound
        spreadsheetName worksheetName).1 =
      ["Error during the authorization: " ++ e] ∧
     endsNonzero (init_remote_phase (AuthOutcome.failure e) ssFound wsFound
        spreadsheetName worksheetName).2 = true) ∧
    ((init_remote_phase AuthOutcome.success false wsFound
        spreadsheetName worksheetName).1 =
      ["Error! The spreadsheet is not found: " ++ spreadsheetName] ∧
     endsNonzero (init_remote_phase AuthOutcome.success false wsFound
        spreadsheetName worksheetName).2 = true) ∧
    ((init_remote_phase AuthOutcome.success true false
        spreadsheetName worksheetName).1 =
      ["Error! The worksheet is not found: " ++ worksheetName] ∧
     endsNonzero (init_remote_phase AuthOutcome.success true false
        spreadsheetName worksheetName).2 = true) := by
  exact ⟨⟨rfl, rfl⟩, ⟨rfl, rfl⟩, ⟨rfl, rfl⟩⟩

/-- A worksheet holding the spec's example previous row
("2024.01.05.", "8", "ProjectX", "desc") at row 5, rows 1-5 occupied, so
`get_last_row_index` yields a last-row index of 5. -/
def exampleSheet : Worksheet :=
  fun r c =>
    if r = 5 ∧ c = 1 then "2024.01.05."
    else if r = 5 ∧ c = 2 then "8"
    else if r = 5 ∧ c = 3 then "ProjectX"
    else if r = 5 ∧ c = 4 then "desc"
    else if 1 ≤ r ∧ r ≤ 4 ∧ c = 1 then "2024.01.04."
    else ""

/-- The previous row stored at row 5 of `exampleSheet`. -/
def examplePrevRow : Row := ⟨"2024.01.05.", "8", "ProjectX", "desc"⟩

/-- A same-day new entry (same date as `examplePrevRow`). -/
def exampleSameDayRow : Row := ⟨"2024.01.05.", "8", "ProjectX", "same day work"⟩

/-- A new entry on the following day. -/
def exampleNewDayRow : Row := ⟨"2024.01.06.", "8", "ProjectX", "next day work"⟩

/-- Unfolding `write_row` on a 4-tuple row: four `update_cell` calls, columns
1 to 4. -/
theorem write_row_four (ws : Worksheet) (n : Int) (row : Row) :
    write_row ws n (rowData row) =
      update_cell (update_cell (update_cell (update_cell ws n 1 row.date)
        n 2 row.hours) n 3 row.project) n 4 row.description := by
  rfl

/-- C1 counterexample: with the previous entry at row index 5 (the current
last-row index) and a same-day accepted row, the write goes to row 6, one past
the previous entry; row 5 keeps its old description and is not overwritten. -/
theorem C1_counterexample :
    (entry_write_step exampleSheet 5 examplePrevRow exampleSameDayRow).1 5 4 = "desc" ∧
    (entry_write_step exampleSheet 5 examplePrevRow exampleSameDayRow).1 5 4 ≠
      "same day work" ∧
    (entry_write_step exampleSheet 5 examplePrevRow exampleSameDayRow).1 6 4 =
      "same day work" ∧
    (entry_write_step exampleSheet 5 examplePrevRow exampleSameDayRow).2 = 6 := by
  decide

/-- C1 amended: in an entry-loop iteration whose accepted row has the same
date as the previous row, the row is written at row index `last_row_index + 1`
(one past the previous entry, which is left untouched), and the last-row index
bookkeeping increments by exactly one. -/
theorem C1_same_day_writes_one_past (ws : Worksheet) (L : Int) (last_row row : Row)
    (h : row.date = last_row.date) :
    (entry_write_step ws L last_row row).2 = L + 1 ∧
    (entry_write_step ws L last_row row).1 (L + 1) 1 = row.date ∧
    (entry_write_step ws L last_row row).1 (L + 1) 2 = row.hours ∧
    (entry_write_step ws L last_row row).1 (L + 1) 3 = row.project ∧
    (entry_write_step ws L last_row row).1 (L + 1) 4 = row.description ∧
    ∀ r c : Int, r ≠ L + 1 → (entry_write_step ws L last_row row).1 r c = ws r c := by
  unfold entry_write_step
  simp only [h, if_pos rfl, write_row_four]
  refine ⟨rfl, ?_, ?_, ?_, ?_, ?_⟩
  · norm_num [update_cell]
  · norm_num [update_cell]
  · norm_num [update_cell]
  · norm_num [update_cell]
  · intro r c hr
    simp [update_cell, hr]

/-- C1 witness: the amended statement at the concrete example sheet. -/
theorem C1_same_day_witness :
    (entry_write_step exampleSheet 5 examplePrevRow exampleSameDayRow).2 = 5 + 1 ∧
    (entry_write_step exampleSheet 5 examplePrevRow exampleSameDayRow).1 (5 + 1) 1 =
      exampleSameDayRow.date ∧
    (entry_write_step exampleSheet 5 examplePrevRow exampleSameDayRow).1 (5 + 1) 2 =
      exampleSameDayRow.hours ∧
    (entry_write_step exampleSheet 5 examplePrevRow exampleSameDayRow).1 (5 + 1) 3 =
      exampleSameDayRow.project ∧
    (entry_write_step exampleSheet 5 examplePrevRow exampleSameDayRow).1 (5 + 1) 4 =
      exampleSameDayRow.description ∧
    ∀ r c : Int, r ≠ 5 + 1 →
      (entry_write_step exampleSheet 5 examplePrevRow exampleSameDayRow).1 r c =
        exampleSheet r c :=
  C1_same_day_writes_one_past exampleSheet 5 examplePrevRow exampleSameDayRow rfl

/-- C3 counterexample: with the previous entry at row index 5 and an accepted
row carrying a new date, the entry is written at row 7 — two past the previous
last row, with row 6 left blank — not at the next row index 6. -/
theorem C3_counterexample :
    (entry_write_step exampleSheet 5 examplePrevRow exampleNewDayRow).1 6 1 = "" ∧
    (entry_write_step exampleSheet 5 examplePrevRow exampleNewDayRow).1 6 1 ≠
      "2024.01.06." ∧
    (entry_write_step exampleSheet 5 examplePrevRow exampleNewDayRow).1 7 1 =
      "2024.01.06." ∧
    (entry_write_step exampleSheet 5 examplePrevRow exampleNewDayRow).2 = 7 := by
  decide

/-- C3 amended: in an entry-loop iteration whose accepted row's date differs
from the previous row's date, the entry is written at row index
`last_row_index + 2` — two past the previous last row, skipping one blank
row — and the last-row index bookkeeping increments by two in total. -/
theorem C3_new_day_writes_two_past (ws : Worksheet) (L : Int) (last_row row : Row)
    (h : row.date ≠ last_row.date) :
    (entry_write_step ws L last_row row).2 = L + 2 ∧
    (entry_write_step ws L last_row row).1 (L + 2) 1 = row.date ∧
    (entry_write_step ws L last_row row).1 (L + 2) 2 = row.hours ∧
    (entry_write_step ws L last_row row).1 (L + 2) 3 = row.project ∧
    (entry_write_step ws L last_row row).1 (L + 2) 4 = row.description ∧
    ∀ r c : Int, r ≠ L + 2 → (entry_write_step ws L last_row row).1 r c = ws r c := by
  have e2 : L + 1 + 1 = L + 2 := by ring
  have estep : entry_write_step ws L last_row row =
      (write_row ws (L + 2) (rowData row), L + 2) := by
    simp only [entry_write_step]
    rw [if_neg h, e2]
  rw [estep]
  simp only [write_row_four]
  refine ⟨trivial, ?_, ?_, ?_, ?_, ?_⟩
  · norm_num [update_cell]
  · norm_num [update_cell]
  · norm_num [update_cell]
  · norm_num [update_cell]
  · intro r c hr
    simp [update_cell, hr]

/-- C3 witness: the amended statement at the concrete example sheet. -/
theorem C3_new_day_witness :
    (entry_write_step exampleSheet 5 examplePrevRow exampleNewDayRow).2 = 5 + 2 ∧
    (entry_write_step exampleSheet 5 examplePrevRow exampleNewDayRow).1 (5 + 2) 1 =
      exampleNewDayRow.date ∧
    (entry_write_step exampleSheet 5 examplePrevRow exampleNewDayRow).1 (5 + 2) 2 =
      exampleNewDayRow.hours ∧
    (entry_write_step exampleSheet 5 examplePrevRow exampleNewDayRow).1 (5 + 2) 3 =
      exampleNewDayRow.project ∧
    (entry_write_step exampleSheet 5 examplePrevRow exampleNewDayRow).1 (5 + 2) 4 =
      exampleNewDayRow.description ∧
    ∀ r c : Int, r ≠ 5 + 2 →
      (entry_write_step exampleSheet 5 examplePrevRow exampleNewDayRow).1 r c =
        exampleSheet r c :=
  C3_new_day_writes_two_past exampleSheet 5 examplePrevRow exampleNewDayRow (by decide)

/-- A worksheet with no rows at all: every cell is blank, so
`get_last_row_index` yields 0. -/
def blankSheet : Worksheet := fun _ _ => ""

/-- The display loop appends one printed line per visited row index and
remembers the last row whose date cell was non-empty. -/
theorem printRows_foldl_lines (ws : Worksheet) (l : List Int) (acc : List String)
    (lr : Option Row) :
    (l.foldl (printRowsStep ws) (acc, lr)).1 =
      acc ++ l.map (fun i => displayLine (row_values ws i)) := by
  induction l generalizing acc lr with
  | nil => simp
  | cons hd tl ih =>
    by_cases h : (row_values ws hd).date = "" <;>
      simp [List.foldl_cons, printRowsStep, displayLine, h, ih]

/-- C2 counterexample: on an entirely blank sheet with last-row index 0 and
display count 5, the display operation prints one line, the placeholder `-`
(the loop bounds force a visit to row 1), so it does not print no lines;
it does return no last row. -/
theorem C2_counterexample :
    (print_last_rows blankSheet 0 5).1 = ["-"] ∧
    (print_last_rows blankSheet 0 5).1 ≠ [] ∧
    (print_last_rows blankSheet 0 5).2 = none := by
  decide

/-- C2 amended: calling the display operation when the sheet has no rows (the
last-row index is 0) prints exactly one line, the placeholder `-`, for the
blank row the loop still visits, and returns no last-row value (None). -/
theorem C2_empty_sheet_prints_dash (ws : Worksheet) (count : Int) (hcount : 1 ≤ count)
    (hblank : ∀ r c, ws r c = "") :
    print_last_rows ws 0 count = (["-"], none) := by
  simp only [print_last_rows]
  have h1 : ¬((0 : Int) - count > 0) := by omega
  rw [if_neg h1]
  have h2 : ¬((0 : Int) > 0) := by omega
  rw [if_neg h2]
  have h3 : pyRange (0 + 1) (0 + 1 + 1) = [1] := by decide
  rw [h3]
  simp [printRowsStep, row_values, hblank]

/-- C2 witness: the amended statement at the blank sheet with count 5. -/
theorem C2_empty_sheet_witness :
    print_last_rows blankSheet 0 5 = (["-"], none) :=
  C2_empty_sheet_prints_dash blankSheet 5 (by decide) (fun _ _ => rfl)

/-- C8: for a sheet with at least one row and a positive display count, the
display operation prints exactly the last `min DisplayRows last_row_index`
rows — the rows with indices `last_row_index - min DisplayRows last_row_index + 1`
through `last_row_index` — each rendered by `displayLine`: the four cells
joined by tabs, or the single character `-` when the row's date cell is
empty. -/
theorem C8_prints_last_display_rows (ws : Worksheet) (L N : Int)
    (hL : 1 ≤ L) (hN : 1 ≤ N) :
    (print_last_rows ws L N).1 =
      (pyRange (L - min N L + 1) (L + 1)).map (fun i => displayLine (row_values ws i)) := by
  simp only [print_last_rows]
  have e1 : (if L - N > 0 then L - N else 0) = L - min N L := by
    split_ifs with h <;> omega
  rw [e1]
  have e2 : (if L > L - min N L then L else L - min N L + 1) = L := by
    split_ifs with h <;> omega
  rw [e2]
  exact printRows_foldl_lines ws _ [] none

/-- A padded digit character is always an ASCII decimal digit. -/
theorem digitChar_isDigit (n : Nat) : (digitChar n).isDigit = true := by
  unfold digitChar
  have h : n % 10 < 10 := Nat.mod_lt n (by omega)
  generalize n % 10 = m at h ⊢
  interval_cases m <;> decide

/-- The default date built in the entry loop (today's date rendered as
`YYYY.MM.DD.`) always passes the date validator. -/
theorem todayDateString_valid (y m d : Nat) :
    validate_date (todayDateString y m d) = true := by
  simp [validate_date, todayDateString, dateCore, pad4, pad2, List.getD,
    digitChar_isDigit]

/-- C10: every candidate row assembled in the entry loop carries a valid
date — a typed date failing `validate_date` is silently replaced by the
default, today's date, which is always in valid form — so the date-check
branch of the row validator never fires from the entry loop, and the loop
rejects (re-prompts) exactly when the assembled row's hours, project, or
description field is empty. -/
theorem C10_entry_date_always_valid (y m d : Nat)
    (hy1 : 1 ≤ y) (hy2 : y ≤ 9999) (hm1 : 1 ≤ m) (hm2 : m ≤ 12)
    (hd1 : 1 ≤ d) (hd2 : d ≤ 31)
    (rawDate prevProject rawProject prevHours rawHours descriptionInput : String) :
    validate_date (assemble_entry (todayDateString y m d) rawDate prevProject rawProject
        prevHours rawHours descriptionInput).date = true ∧
    (validate_row (assemble_entry (todayDateString y m d) rawDate prevProject rawProject
        prevHours rawHours descriptionInput) = false ↔
      ((assemble_entry (todayDateString y m d) rawDate prevProject rawProject
          prevHours rawHours descriptionInput).hours = "" ∨
       (assemble_entry (todayDateString y m d) rawDate prevProject rawProject
          prevHours rawHours descriptionInput).project = "" ∨
       (assemble_entry (todayDateString y m d) rawDate prevProject rawProject
          prevHours rawHours descriptionInput).description = "")) := by
  have hdate : validate_date (assemble_entry (todayDateString y m d) rawDate prevProject
      rawProject prevHours rawHours descriptionInput).date = true := by
    unfold assemble_entry
    by_cases hv : validate_date rawDate = true
    · simp [hv]
    · simp [hv, todayDateString_valid]
  refine ⟨hdate, ?_⟩
  unfold validate_row
  rw [hdate]
  by_cases h1 : (assemble_entry (todayDateString y m d) rawDate prevProject rawProject
      prevHours rawHours descriptionInput).hours = "" <;>
    by_cases h2 : (assemble_entry (todayDateString y m d) rawDate prevProject rawProject
      prevHours rawHours descriptionInput).project = "" <;>
    by_cases h3 : (assemble_entry (todayDateString y m d) rawDate prevProject rawProject
      prevHours rawHours descriptionInput).description = "" <;>
    simp [h1, h2, h3]

/-- C10 witness: the statement at today's concrete date 2025.10.12. with an
invalid typed date, empty typed project and hours falling back to previous
values, and a non-empty description. -/
theorem C10_entry_date_witness :
    validate_date (assemble_entry (todayDateString 2025 10 12) "tomorrow" "ProjectX" ""
        "8" "" "did work").date = true ∧
    (validate_row (assemble_entry (todayDateString 2025 10 12) "tomorrow" "ProjectX" ""
        "8" "" "did work") = false ↔
      ((assemble_entry (todayDateString 2025 10 12) "tomorrow" "ProjectX" ""
          "8" "" "did work").hours = "" ∨
       (assemble_entry (todayDateString 2025 10 12) "tomorrow" "ProjectX" ""
          "8" "" "did work").project = "" ∨
       (assemble_entry (todayDateString 2025 10 12) "tomorrow" "ProjectX" ""
          "8" "" "did work").description = "")) :=
  C10_entry_date_always_valid 2025 10 12 (by decide) (by decide) (by decide) (by decide)
    (by decide) (by decide) "tomorrow" "ProjectX" "" "8" "" "did work"

/-- Shape asserted by the claim, written from its words: 4 digits, any one
character, 2 digits, any one character, 2 digits, and any one final
character — no restriction at all on the three separator positions. -/
def anyCharShape : List Char → Bool
  | [y1, y2, y3, y4, _, m1, m2, _, d1, d2, _] =>
    y1.isDigit && y2.isDigit && y3.isDigit && y4.isDigit &&
    m1.isDigit && m2.isDigit && d1.isDigit && d2.isDigit
  | _ => false

/-- Positions of the eight digits in an 11-character date candidate. -/
def claimDigitPositions : List Nat := [0, 1, 2, 3, 5, 6, 8, 9]

/-- Positions of the three separators in an 11-character date candidate. -/
def claimSeparatorPositions : List Nat := [4, 7, 10]

/-- Shape from the amended claim: exactly 11 characters, digits at the eight
digit positions, any non-newline character at the three separator
positions. -/
def amendedBodyShape (cs : List Char) : Prop :=
  cs.length = 11 ∧
  (∀ i ∈ claimDigitPositions, (cs.getD i ' ').isDigit = true) ∧
  (∀ i ∈ claimSeparatorPositions, cs.getD i ' ' ≠ '\n')

/-- The core of the compiled regex accepts exactly the amended shape. -/
theorem dateCore_iff_body (cs : List Char) :
    dateCore cs = true ↔ amendedBodyShape cs := by
  simp only [dateCore, amendedBodyShape, claimDigitPositions, claimSeparatorPositions,
    Bool.and_eq_true, beq_iff_eq, bne_iff_ne, ne_eq, List.forall_mem_cons,
    List.mem_singleton, forall_eq, List.not_mem_nil, false_implies, implies_true,
    and_true]
  tauto

/-- The trailing-newline branch of the compiled regex accepts exactly the
strings made of an amended-shape body followed by one newline. -/
theorem trailing_iff_body (l : List Char) :
    (l.getLast? == some '\n' && dateCore l.dropLast) = true ↔
      ∃ cs, l = cs ++ ['\n'] ∧ amendedBodyShape cs := by
  rw [Bool.and_eq_true, beq_iff_eq]
  constructor
  · rintro ⟨h1, h2⟩
    exact ⟨l.dropLast, (List.dropLast_append_getLast? '\n' h1).symm,
      (dateCore_iff_body _).mp h2⟩
  · rintro ⟨cs, rfl, hb⟩
    refine ⟨?_, ?_⟩
    · simp
    · rw [List.dropLast_concat]
      exact (dateCore_iff_body _).mpr hb

/-- C9 counterexample: "2024\n01.05." consists of 4 digits, one character,
2 digits, one character, 2 digits and one final character, yet the date
validator rejects it (Python's `.` does not match a newline); conversely
"2024.01.05.\n" has 12 characters, outside the claimed shape, yet the
validator accepts it (Python's `$` also matches just before a trailing
newline).  Both directions of the claimed "exactly when" fail. -/
theorem C9_counterexample :
    anyCharShape "2024\n01.05.".data = true ∧
    validate_date "2024\n01.05." = false ∧
    validate_date "2024.01.05.\n" = true ∧
    anyCharShape "2024.01.05.\n".data = false := by
  decide

/-- C9 amended: the date validator's unescaped `.` matches any character
except a newline, so a string is accepted exactly when it consists of 4
digits, one non-newline character, 2 digits, one non-newline character, 2
digits and one final non-newline character, optionally followed by a single
trailing newline (which Python's `$` tolerates); in particular "2024-01-05-"
and "2024x01x05x" are accepted, not only dot-separated dates. -/
theorem C9_date_language (s : String) :
    (validate_date s = true ↔
      (amendedBodyShape s.data ∨ ∃ cs, s.data = cs ++ ['\n'] ∧ amendedBodyShape cs)) ∧
    validate_date "2024-01-05-" = true ∧
    validate_date "2024x01x05x" = true := by
  refine ⟨?_, by decide, by decide⟩
  unfold validate_date
  rw [Bool.or_eq_true]
  rw [or_congr (dateCore_iff_body s.data) (trailing_iff_body s.data)]

/-- A worksheet with two occupied rows: row 1 a full entry and row 2 a row
whose date cell is blank (displayed as `-`). -/
def twoRowSheet : Worksheet :=
  fun r c =>
    if r = 1 ∧ c = 1 then "2024.01.04."
    else if r = 1 ∧ c = 2 then "7"
    else if r = 1 ∧ c = 3 then "ProjectX"
    else if r = 1 ∧ c = 4 then "earlier work"
    else if r = 2 ∧ c = 4 then "note without date"
    else ""

/-- C8 witness: the display statement at the concrete two-row sheet with
last-row index 2 and display count 5. -/
theorem C8_display_witness :
    (print_last_rows twoRowSheet 2 5).1 =
      (pyRange (2 - min 5 2 + 1) (2 + 1)).map
        (fun i => displayLine (row_values twoRowSheet i)) :=
  C8_prints_last_display_rows twoRowSheet 2 5 (by decide) (by decide)

end Timesheeter
